import Mathlib

/-!
Verification of the classification-and-disposal pipeline of
`enterprise-appdata-cleaner` (`src/cleaner.py`), shallowly embedded in Lean.

Modelling conventions:
* Paths and other strings are `List Char`; Python's `s.lower()` is a
  character-wise `Char.toLower` map and Python's `pat in s` is the substring
  test `containsSub`.
* Times are integer Unix seconds; Python's float expression
  `(time.time() - st_mtime) / 86400 < days` is embedded exactly as the
  integer comparison `now - mtime < days * 86400`, and
  `st_size / (1024*1024) < mb` as `size < mb * 1048576`.
* A file's `stat` either succeeds with metadata or fails carrying the
  exception text (`Except (List Char) Stat`); each file has one fixed stat
  outcome for the whole run (the code stats several times; a file whose
  stat outcome changes mid-run is outside the model).
* Human-readable log strings that interpolate floating-point numbers
  (the age/size reasons of `is_enterprise_software_linked`) keep their
  fixed prefix and abstract the interpolated digits, since no claim
  depends on the rendered digits.
-/

namespace Cleaner

/-- A path (or any Python string) as a list of characters. -/
abbrev FilePath' : Type := List Char

/-- Python `s.lower()`. -/
def lower (s : List Char) : List Char := s.map Char.toLower

/-- `isPrefixChars pat s` is true when `pat` is a prefix of `s`. -/
def isPrefixChars : List Char → List Char → Bool
  | [], _ => true
  | _ :: _, [] => false
  | a :: as, b :: bs => a == b && isPrefixChars as bs

/-- Python `pat in s`: `pat` occurs as a contiguous substring of `s`. -/
def containsSub (pat : List Char) : List Char → Bool
  | [] => pat.isEmpty
  | c :: rest => isPrefixChars pat (c :: rest) || containsSub pat rest

/-- Python `pathlib`: the last `/`-separated component of a path
(`Path(p).name`). -/
def fpName (p : FilePath') : List Char := (p.splitOn '/').getLastD []

/-- Python `pathlib`: the name of the immediate parent directory
(`Path(p).parent.name`). -/
def fpParentName (p : FilePath') : List Char :=
  ((p.splitOn '/').dropLast).getLastD []

/-- Python `pathlib` `Path(p).suffix`: `.ext` when the file name has a dot
at an index `i` with `0 < i < len - 1`, else empty. -/
def fpSuffix (name : List Char) : List Char :=
  let idxs := (List.range name.length).filter (fun i => name.getD i ' ' == '.')
  match idxs.getLast? with
  | some i => if 0 < i && i + 1 < name.length then name.drop i else []
  | none => []

/-- Successful `stat` data: size in bytes and mtime in Unix seconds. -/
structure Stat where
  sizeBytes : Nat
  mtime : Int
deriving DecidableEq

/-- Outcome of `path.stat()`: metadata, or the OSError text. -/
abbrev StatResult : Type := Except (List Char) Stat

instance : DecidableEq StatResult := fun a b =>
  match a, b with
  | .ok x, .ok y =>
    if h : x = y then isTrue (by rw [h])
    else isFalse (by intro hc; cases hc; exact h rfl)
  | .error x, .error y =>
    if h : x = y then isTrue (by rw [h])
    else isFalse (by intro hc; cases hc; exact h rfl)
  | .ok _, .error _ => isFalse (by intro hc; cases hc)
  | .error _, .ok _ => isFalse (by intro hc; cases hc)

/-- Sensitive-data token set of `contains_sensitive_data`
(cleaner.py lines 729-733). -/
def sensitive_patterns : List (List Char) :=
  ["password", "secret", "key", "token", "credential",
   "ssn", "social security", "passport", "license",
   "confidential", "restricted", "classified"].map String.toList

/-- Classification markers of `is_classified_information`
(cleaner.py lines 745-748). -/
def classification_markers : List (List Char) :=
  ["confidential", "restricted", "secret", "top secret",
   "internal", "proprietary", "classified"].map String.toList

/-- Financial-data tokens of `contains_financial_data`
(cleaner.py lines 758-761). -/
def financial_patterns : List (List Char) :=
  ["financial", "accounting", "revenue", "expense",
   "invoice", "payment", "transaction", "audit",
   "budget", "cost", "profit", "loss"].map String.toList

/-- Cardholder-data tokens of `contains_cardholder_data`
(cleaner.py lines 772-774). -/
def pci_patterns : List (List Char) :=
  ["card", "credit", "debit", "payment", "pan",
   "cardholder", "cvv", "expiry", "visa", "mastercard"].map String.toList

/-- `contains_sensitive_data` (cleaner.py 727-741): matches each token
against the lower-cased file name and the lower-cased immediate parent
directory name only. -/
def contains_sensitive_data (p : FilePath') : Bool :=
  sensitive_patterns.any (fun pat =>
    containsSub pat (lower (fpName p)) || containsSub pat (lower (fpParentName p)))

/-- `is_classified_information` (cleaner.py 743-754): matches against the
full lower-cased path string. -/
def is_classified_information (p : FilePath') : Bool :=
  classification_markers.any (fun m => containsSub m (lower p))

/-- `contains_financial_data` (cleaner.py 756-768): full lower-cased path. -/
def contains_financial_data (p : FilePath') : Bool :=
  financial_patterns.any (fun m => containsSub m (lower p))

/-- `contains_cardholder_data` (cleaner.py 770-781): full lower-cased path. -/
def contains_cardholder_data (p : FilePath') : Bool :=
  pci_patterns.any (fun m => containsSub m (lower p))

/-- Protected-directory tokens of `is_protected_directory`
(cleaner.py 635-639). -/
def protected_patterns : List (List Char) :=
  ["system32", "syswow64", "windows", "program files",
   "certificates", "keys", "crypto", "security",
   ".ssh", ".gnupg", "credentials"].map String.toList

/-- `is_protected_directory` (cleaner.py 633-642): any protected token is a
substring of the full lower-cased directory path. -/
def is_protected_directory (d : FilePath') : Bool :=
  protected_patterns.any (fun pat => containsSub pat (lower d))

/-- Result record shared by all `check_*_compliance` functions. -/
structure ComplianceResult where
  compliant : Bool
  score : Int
  issues : List (List Char)
deriving DecidableEq

/-- Issue text of the nist retention rule (cleaner.py 677). -/
def nistIssue : List Char :=
  "Sensitive data with insufficient retention period".toList

/-- Issue text of the nist stat-error branch (cleaner.py 681); `e` is the
exception text. -/
def nistErrIssue (e : List Char) : List Char :=
  "Compliance check error: ".toList ++ e

/-- Issue text of the iso27001 rule (cleaner.py 693). -/
def isoIssue : List Char :=
  "Classified information requires special handling".toList

/-- Issue text of the sox rule (cleaner.py 708). -/
def soxIssue : List Char :=
  "Financial data requires 7-year retention".toList

/-- Issue text of the pci rule (cleaner.py 722). -/
def pciIssue : List Char :=
  "Potential cardholder data found - requires secure deletion".toList

/-- `check_nist_compliance` (cleaner.py 665-684): stats the file first; on
stat failure records an error issue, score 90, but leaves `compliant` true.
On success, deducts 50 iff the sensitive-data match fires and the age is
below 365 days. -/
def check_nist_compliance (now : Int) (p : FilePath') (st : StatResult) :
    ComplianceResult :=
  match st with
  | .error e => ⟨true, 90, [nistErrIssue e]⟩
  | .ok s =>
    if contains_sensitive_data p && decide (now - s.mtime < 365 * 86400)
    then ⟨false, 50, [nistIssue]⟩
    else ⟨true, 100, []⟩

/-- `check_iso27001_compliance` (cleaner.py 686-696). -/
def check_iso27001_compliance (p : FilePath') : ComplianceResult :=
  if is_classified_information p then ⟨false, 25, [isoIssue]⟩
  else ⟨true, 100, []⟩

/-- `check_sox_compliance` (cleaner.py 698-713): the financial-token match
is checked first; the stat happens inside a `try` whose failure is
silently passed over. -/
def check_sox_compliance (now : Int) (p : FilePath') (st : StatResult) :
    ComplianceResult :=
  if contains_financial_data p then
    match st with
    | .ok s =>
      if now - s.mtime < 2555 * 86400 then ⟨false, 10, [soxIssue]⟩
      else ⟨true, 100, []⟩
    | .error _ => ⟨true, 100, []⟩
  else ⟨true, 100, []⟩

/-- `check_pci_compliance` (cleaner.py 715-725). -/
def check_pci_compliance (p : FilePath') : ComplianceResult :=
  if contains_cardholder_data p then ⟨false, 0, [pciIssue]⟩
  else ⟨true, 100, []⟩

/-- `check_compliance` (cleaner.py 644-663): dispatch on the framework
name; any unrecognized framework passes through with 100/compliant. -/
def check_compliance (fw : List Char) (now : Int) (p : FilePath')
    (st : StatResult) : ComplianceResult :=
  if fw == "nist".toList then check_nist_compliance now p st
  else if fw == "iso27001".toList then check_iso27001_compliance p
  else if fw == "sox".toList then check_sox_compliance now p st
  else if fw == "pci".toList then check_pci_compliance p
  else ⟨true, 100, []⟩

/-- Spec-side (claim C7): the "framework-specific pattern" of §4.2 — the
per-framework token predicate that `check_compliance` dispatches to, and
no pattern at all for an unrecognized framework. -/
def matchesFrameworkPattern (fw : List Char) (p : FilePath') : Bool :=
  if fw == "nist".toList then contains_sensitive_data p
  else if fw == "iso27001".toList then is_classified_information p
  else if fw == "sox".toList then contains_financial_data p
  else if fw == "pci".toList then contains_cardholder_data p
  else false

/-- Deletion policy thresholds from the `security` configuration section:
`max_file_age_days` and `min_file_size_mb` (cleaner.py 116-117). -/
structure Policy where
  maxFileAgeDays : Nat
  minFileSizeMB : Nat
deriving DecidableEq

/-- The `enterprise_software` database: categories paired with their token
lists, in iteration order (cleaner.py 263-289). -/
abbrev KnownSoftware : Type := List (List Char × List (List Char))

/-- Protected extension set of `is_enterprise_software_linked`
(cleaner.py 543-549). -/
def enterprise_extensions : List (List Char) :=
  [".pfx", ".p12", ".crt", ".cer", ".key",
   ".msi", ".msp",
   ".reg", ".pol",
   ".admx", ".adml",
   ".rdp", ".vnc"].map String.toList

/-- Reason string of the software-link rule,
`"Enterprise software ({category}): {software}"` (cleaner.py 520). -/
def swReason (cat sw : List Char) : List Char :=
  "Enterprise software (".toList ++ cat ++ "): ".toList ++ sw

/-- Reason string of the recency rule (cleaner.py 528); the interpolated
age and threshold digits are abstracted. -/
def ageReason : List Char :=
  "File too recent (age below policy max days)".toList

/-- Reason string of the size rule (cleaner.py 538); interpolated digits
abstracted. -/
def sizeReason : List Char :=
  "File too small (size below policy min MB)".toList

/-- Reason string of the extension rule,
`"Enterprise file type: {suffix}"` (cleaner.py 552). -/
def extReason (p : FilePath') : List Char :=
  "Enterprise file type: ".toList ++ fpSuffix (fpName p)

/-- Reason string of the not-protected outcome (cleaner.py 554). -/
def noLinkReason : List Char := "No enterprise links found".toList

/-- The nested category/token search of `is_enterprise_software_linked`
(cleaner.py 517-520): the first token that is a substring of the
lower-cased full path, parent-directory name, or file name, with its
category. -/
def swFirstMatch (know : KnownSoftware) (p : FilePath') :
    Option (List Char × List Char) :=
  match know with
  | [] => none
  | (cat, sws) :: rest =>
    match sws.find? (fun sw =>
        containsSub sw (lower p) || containsSub sw (lower (fpParentName p)) ||
        containsSub sw (lower (fpName p))) with
    | some sw => some (cat, sw)
    | none => swFirstMatch rest p

/-- `is_enterprise_software_linked` (cleaner.py 510-554): software tokens,
then recency, then size, then protected extensions; each of the two
stat-based rules is silently skipped when the stat fails (`except OSError:
pass`). Returns the protected flag and the reason string. -/
def is_enterprise_software_linked (now : Int) (know : KnownSoftware)
    (pol : Policy) (p : FilePath') (st : StatResult) : Bool × List Char :=
  match swFirstMatch know p with
  | some (cat, sw) => (true, swReason cat sw)
  | none =>
    if (match st with
        | .ok s => decide (now - s.mtime < pol.maxFileAgeDays * 86400)
        | .error _ => false) then
      (true, ageReason)
    else if (match st with
        | .ok s => decide (s.sizeBytes < pol.minFileSizeMB * 1048576)
        | .error _ => false) then
      (true, sizeReason)
    else if enterprise_extensions.contains (lower (fpSuffix (fpName p))) then
      (true, extReason p)
    else
      (false, noLinkReason)

/-- A file as the walk presents it: its name, whether `path.exists()`
holds, and its fixed stat outcome. -/
structure WalkFile where
  name : List Char
  present : Bool
  stat : StatResult
deriving DecidableEq

/-- One `os.walk` step: a directory path and the plain files directly in
it. -/
structure DirEntry where
  dir : FilePath'
  files : List WalkFile
deriving DecidableEq

/-- Entry of `results['orphaned_files']` (cleaner.py 607-612):
path, size, mtime, compliance score. The ISO timestamp string is kept as
the raw mtime. -/
structure OrphanRec where
  path : FilePath'
  sizeBytes : Nat
  mtime : Int
  score : Int
deriving DecidableEq

/-- Entry of `results['protected_files']` (cleaner.py 596-601); the
`protected_at` wall-clock stamp is not modelled. -/
structure ProtRec where
  path : FilePath'
  sizeBytes : Nat
  reason : List Char
deriving DecidableEq

/-- Entry of `results['compliance_issues']` (cleaner.py 614-617). -/
structure IssueRec where
  path : FilePath'
  issues : List (List Char)
deriving DecidableEq

/-- Entry of `results['errors']` (cleaner.py 620-623): path and the
exception text. -/
structure ErrRec where
  path : FilePath'
  error : List Char
deriving DecidableEq

/-- The aggregate record built by `scan_with_compliance`
(cleaner.py 558-567); the static `directory` and `security_events` fields
are omitted. -/
structure ScanResult where
  total_files : Nat
  total_size : Nat
  orphaned_files : List OrphanRec
  protected_files : List ProtRec
  compliance_issues : List IssueRec
  errors : List ErrRec
deriving DecidableEq

/-- The empty scan accumulator (cleaner.py 558-567). -/
def initScanResult : ScanResult := ⟨0, 0, [], [], [], []⟩

/-- `root_path / file_name`. -/
def mkPath (dir name : List Char) : FilePath' := dir ++ '/' :: name

/-- The per-file body of the scan loop (cleaner.py 581-624): skip absent
files; record an access error when the stat fails (without touching the
totals); otherwise count the file, classify it, and on the orphan branch
evaluate compliance. -/
def scanFileStep (fw : List Char) (now : Int) (know : KnownSoftware)
    (pol : Policy) (dir : FilePath') (acc : ScanResult) (f : WalkFile) :
    ScanResult :=
  if !f.present then acc
  else
    match f.stat with
    | .error e =>
      ⟨acc.total_files, acc.total_size, acc.orphaned_files,
       acc.protected_files, acc.compliance_issues,
       acc.errors ++ [⟨mkPath dir f.name, e⟩]⟩
    | .ok s =>
      let p := mkPath dir f.name
      let linked := is_enterprise_software_linked now know pol p (.ok s)
      if linked.1 then
        ⟨acc.total_files + 1, acc.total_size + s.sizeBytes,
         acc.orphaned_files,
         acc.protected_files ++ [⟨p, s.sizeBytes, linked.2⟩],
         acc.compliance_issues, acc.errors⟩
      else
        let c := check_compliance fw now p (.ok s)
        if c.compliant then
          ⟨acc.total_files + 1, acc.total_size + s.sizeBytes,
           acc.orphaned_files ++ [⟨p, s.sizeBytes, s.mtime, c.score⟩],
           acc.protected_files, acc.compliance_issues, acc.errors⟩
        else
          ⟨acc.total_files + 1, acc.total_size + s.sizeBytes,
           acc.orphaned_files, acc.protected_files,
           acc.compliance_issues ++ [⟨p, c.issues⟩], acc.errors⟩

/-- The per-directory body of the walk (cleaner.py 573-582): a directory
whose path trips `is_protected_directory` is skipped whole. -/
def scanDirStep (fw : List Char) (now : Int) (know : KnownSoftware)
    (pol : Policy) (acc : ScanResult) (d : DirEntry) : ScanResult :=
  if is_protected_directory d.dir then acc
  else d.files.foldl (scanFileStep fw now know pol d.dir) acc

/-- `scan_with_compliance` (cleaner.py 556-631) over an `os.walk` trace
given as the list of visited (directory, files) pairs. -/
def scan_with_compliance (fw : List Char) (now : Int) (know : KnownSoftware)
    (pol : Policy) (walk : List DirEntry) : ScanResult :=
  walk.foldl (scanDirStep fw now know pol) initScanResult

/-- A filesystem snapshot: an association of paths to byte contents
(only the files' presence and contents matter to the claims). -/
abbrev FS : Type := List (FilePath' × List Nat)

/-- Audit-log side-channel events of `secure_delete_file`
(cleaner.py 787, 816, 821). -/
inductive AuditEvent where
  | dryRunDelete (p : FilePath')
  | secureDelete (p : FilePath') (sizeBytes : Nat)
  | secureDeleteFailed (p : FilePath') (cause : List Char)
deriving DecidableEq

/-- Contents of a path in the snapshot, if present. -/
def fsLookup (fs : FS) (p : FilePath') : Option (List Nat) :=
  match fs.find? (fun e => e.1 == p) with
  | some e => some e.2
  | none => none

/-- Remove a path from the snapshot (`file_path.unlink()`). -/
def fsRemove (fs : FS) (p : FilePath') : FS :=
  fs.filter (fun e => !(e.1 == p))

/-- `secure_delete_file` (cleaner.py 783-822). In dry-run mode it logs and
returns `True` without touching the filesystem. In live mode, `failAt`
says whether the stat/overwrite/unlink sequence for the path raises
(carrying the exception text); the function catches every exception
itself, emits the `SECURE_DELETE_FAILED` audit event and returns `False`
— it never re-raises. On success the path is unlinked and the
`SECURE_DELETE` event carries the stat'd size. The partially-overwritten
contents a failure may leave behind are not asserted by any claim and the
snapshot is left as-is on that branch. -/
def secure_delete_file (dryRun : Bool) (failAt : FilePath' → Option (List Char))
    (fs : FS) (p : FilePath') : Bool × FS × List AuditEvent :=
  if dryRun then (true, fs, [.dryRunDelete p])
  else
    match failAt p with
    | some cause => (false, fs, [.secureDeleteFailed p cause])
    | none =>
      (true, fsRemove fs p, [.secureDelete p ((fsLookup fs p).getD []).length])

/-- The per-run mutable results relevant to disposal
(cleaner.py 56-65): the deletion ledger `deleted_files`, the running
`deleted_size`, and the run-level `errors` list. Timestamps are not
modelled. -/
structure RunResults where
  deleted_files : List (FilePath' × Nat × Int)
  deleted_size : Nat
  errors : List ErrRec
deriving DecidableEq

/-- Outcome of the disposal loop: the run results, the filesystem, the
local `deleted_count` / `deleted_size` counters of
`cleanup_appdata_directory`, and the audit events emitted. -/
structure DisposalOutcome where
  state : RunResults
  fs : FS
  deleted_count : Nat
  deleted_sz : Nat
  audit : List AuditEvent
deriving DecidableEq

/-- The orphaned-file disposal loop of `cleanup_appdata_directory`
(cleaner.py 1020-1044). Since `secure_delete_file` catches every
exception internally and returns `False`, the surrounding
`except Exception` block (cleaner.py 1037-1044) — the only place that
would append a failure entry to `results['errors']` — can never run; the
loop therefore only branches on the returned boolean, exactly as the
code behaves. -/
def process_orphaned_files (dryRun : Bool)
    (failAt : FilePath' → Option (List Char)) :
    List OrphanRec → FS → RunResults → Nat → Nat → List AuditEvent →
    DisposalOutcome
  | [], fs, res, dc, ds, ev => ⟨res, fs, dc, ds, ev⟩
  | o :: rest, fs, res, dc, ds, ev =>
    let r := secure_delete_file dryRun failAt fs o.path
    if r.1 then
      process_orphaned_files dryRun failAt rest r.2.1
        ⟨res.deleted_files ++ [(o.path, o.sizeBytes, o.score)],
         res.deleted_size + o.sizeBytes, res.errors⟩
        (dc + 1) (ds + o.sizeBytes) (ev ++ r.2.2)
    else
      process_orphaned_files dryRun failAt rest r.2.1 res dc ds (ev ++ r.2.2)

/-! ### Substring and protected-directory lemmas -/

theorem isPrefixChars_append {pat t : List Char} (s : List Char)
    (h : isPrefixChars pat t = true) : isPrefixChars pat (t ++ s) = true := by
  induction pat generalizing t with
  | nil => simp [isPrefixChars]
  | cons a as ih =>
    cases t with
    | nil => simp [isPrefixChars] at h
    | cons b bs =>
      simp only [isPrefixChars, Bool.and_eq_true] at h
      simp only [List.cons_append, isPrefixChars, Bool.and_eq_true]
      exact ⟨h.1, ih h.2⟩

theorem containsSub_nil (s : List Char) : containsSub [] s = true := by
  induction s with
  | nil => rfl
  | cons c rest ih => simp [containsSub, isPrefixChars]

theorem containsSub_append {pat p : List Char} (s : List Char)
    (h : containsSub pat p = true) : containsSub pat (p ++ s) = true := by
  induction p with
  | nil =>
    cases pat with
    | nil => simpa using containsSub_nil s
    | cons a as => simp [containsSub, List.isEmpty] at h
  | cons c rest ih =>
    simp only [containsSub, Bool.or_eq_true] at h
    simp only [List.cons_append, containsSub, Bool.or_eq_true]
    rcases h with h | h
    · exact Or.inl (isPrefixChars_append s h)
    · exact Or.inr (ih h)

theorem lower_append (p s : List Char) : lower (p ++ s) = lower p ++ lower s :=
  List.map_append _ _ _

/-- The protected-directory test is a substring match on the whole
lower-cased path, so it is monotone under appending path text. -/
theorem protected_mono {p : List Char} (s : List Char)
    (h : is_protected_directory p = true) :
    is_protected_directory (p ++ s) = true := by
  simp only [is_protected_directory, List.any_eq_true] at h ⊢
  obtain ⟨pat, hmem, hsub⟩ := h
  exact ⟨pat, hmem, by rw [lower_append]; exact containsSub_append _ hsub⟩

/-! ### Scan partition invariant -/

/-- The disposition-partition invariant over stat-successful files. -/
def scanINV (r : ScanResult) : Prop :=
  r.protected_files.length + r.orphaned_files.length
    + r.compliance_issues.length = r.total_files

theorem scanFileStep_inv (fw : List Char) (now : Int) (know : KnownSoftware)
    (pol : Policy) (dir : FilePath') (acc : ScanResult) (f : WalkFile)
    (h : scanINV acc) : scanINV (scanFileStep fw now know pol dir acc f) := by
  unfold scanFileStep
  split
  · exact h
  · split
    · simpa [scanINV] using h
    · dsimp only
      split
      · simp only [scanINV, List.length_append, List.length_cons,
          List.length_nil] at h ⊢
        omega
      · split
        · simp only [scanINV, List.length_append, List.length_cons,
            List.length_nil] at h ⊢
          omega
        · simp only [scanINV, List.length_append, List.length_cons,
            List.length_nil] at h ⊢
          omega

theorem foldl_pres {σ α : Type} {P : σ → Prop} {step : σ → α → σ}
    (hstep : ∀ a x, P a → P (step a x)) :
    ∀ (l : List α) (a : σ), P a → P (l.foldl step a)
  | [], _, h => h
  | x :: xs, a, h => foldl_pres hstep xs (step a x) (hstep a x h)

theorem scanDirStep_inv (fw : List Char) (now : Int) (know : KnownSoftware)
    (pol : Policy) (acc : ScanResult) (d : DirEntry)
    (h : scanINV acc) : scanINV (scanDirStep fw now know pol acc d) := by
  unfold scanDirStep
  split
  · exact h
  · exact foldl_pres (fun a x => scanFileStep_inv fw now know pol d.dir a x)
      d.files acc h

/-! ### Claim theorems -/

/-- Claim C3, counterexample: a walk reaching exactly one file whose stat
fails yields `total_files = 0` while the error list has one entry, so
`protected + orphan_compliant + orphan_noncompliant + error = 1 ≠ 0 =
total_files`: files whose stat fails are not counted in the total-file
counter, refuting the claimed partition equation. -/
theorem C3_counterexample :
    (scan_with_compliance "nist".toList 0 [] ⟨90, 1⟩
      [⟨"d".toList, [⟨"f".toList, true, .error "Permission denied".toList⟩]⟩]).total_files = 0
    ∧ ((scan_with_compliance "nist".toList 0 [] ⟨90, 1⟩
      [⟨"d".toList, [⟨"f".toList, true, .error "Permission denied".toList⟩]⟩]).protected_files.length
      + (scan_with_compliance "nist".toList 0 [] ⟨90, 1⟩
      [⟨"d".toList, [⟨"f".toList, true, .error "Permission denied".toList⟩]⟩]).orphaned_files.length
      + (scan_with_compliance "nist".toList 0 [] ⟨90, 1⟩
      [⟨"d".toList, [⟨"f".toList, true, .error "Permission denied".toList⟩]⟩]).compliance_issues.length
      + (scan_with_compliance "nist".toList 0 [] ⟨90, 1⟩
      [⟨"d".toList, [⟨"f".toList, true, .error "Permission denied".toList⟩]⟩]).errors.length) = 1 := by
  decide

/-- Claim C3 (amended): each visited file whose stat succeeds receives
exactly one of Protected / OrphanCompliant / OrphanNonCompliant and is
counted; files whose stat fails are recorded as access errors but are
excluded from the total-file and total-byte counters, so the partition
equation holds without the error count:
`protected + orphan_compliant + orphan_noncompliant = total_files`. -/
theorem C3_partition_amended (fw : List Char) (now : Int)
    (know : KnownSoftware) (pol : Policy) (walk : List DirEntry) :
    (scan_with_compliance fw now know pol walk).protected_files.length
      + (scan_with_compliance fw now know pol walk).orphaned_files.length
      + (scan_with_compliance fw now know pol walk).compliance_issues.length
      = (scan_with_compliance fw now know pol walk).total_files :=
  foldl_pres (P := scanINV)
    (fun a d => scanDirStep_inv fw now know pol a d) walk initScanResult rfl

/-- Claim C10: the protected-directory predicate is monotone under path
extension — if directory `p` is judged protected then so is any sub-path
`p/c`, because the check is a substring match on the full lower-cased
path string. -/
theorem C10_protected_dir_monotone (p c : List Char)
    (h : is_protected_directory p = true) :
    is_protected_directory (p ++ '/' :: c) = true :=
  protected_mono _ h

/-- Witness for C10 at a concrete protected directory and sub-path. -/
theorem C10_witness :
    is_protected_directory "c:/users/me/.ssh".toList = true
    ∧ is_protected_directory ("c:/users/me/.ssh".toList ++ '/' :: "host".toList)
      = true :=
  ⟨by decide, C10_protected_dir_monotone "c:/users/me/.ssh".toList "host".toList
    (by decide)⟩

/-- Claim C8: a walk entry whose directory extends a protected directory
contributes nothing to the scan — its files are never classified, never
evaluated, never added to any disposition list and never counted; and
since disposal consumes only the scan's orphaned list, such files are
never disposed either. -/
theorem C8_protected_subtree_skip (fw : List Char) (now : Int)
    (know : KnownSoftware) (pol : Policy) (d ext : List Char)
    (files : List WalkFile) (w₁ w₂ : List DirEntry)
    (h : is_protected_directory d = true) :
    scan_with_compliance fw now know pol (w₁ ++ ⟨d ++ ext, files⟩ :: w₂)
      = scan_with_compliance fw now know pol (w₁ ++ w₂) := by
  unfold scan_with_compliance
  rw [List.foldl_append, List.foldl_cons, List.foldl_append]
  congr 1
  unfold scanDirStep
  simp [protected_mono ext h]

/-- Witness for C8: a file under `C:/Windows/System32/Drivers` leaves the
scan result identical to the scan of an empty walk. -/
theorem C8_witness :
    is_protected_directory "C:/Windows/System32".toList = true
    ∧ scan_with_compliance "nist".toList 0 [] ⟨90, 1⟩
        ([] ++ ⟨"C:/Windows/System32".toList ++ "/Drivers".toList,
          [⟨"x.dll".toList, true, .ok ⟨5, 0⟩⟩]⟩ :: [])
      = scan_with_compliance "nist".toList 0 [] ⟨90, 1⟩ ([] ++ []) :=
  ⟨by decide,
   C8_protected_subtree_skip "nist".toList 0 [] ⟨90, 1⟩
     "C:/Windows/System32".toList "/Drivers".toList
     [⟨"x.dll".toList, true, .ok ⟨5, 0⟩⟩] [] [] (by decide)⟩

/-- Claim C4: a dry-run disposal pass performs no filesystem mutation —
the snapshot is returned exactly as given (so every input file still
exists with unchanged size and content) — while every record still
receives a synthetic success ledger entry and the run counters advance
accordingly. -/
theorem C4_dry_run_no_mutation (failAt : FilePath' → Option (List Char))
    (orphans : List OrphanRec) (fs : FS) (res : RunResults)
    (dc ds : Nat) (ev : List AuditEvent) :
    process_orphaned_files true failAt orphans fs res dc ds ev
      = ⟨⟨res.deleted_files
            ++ orphans.map (fun o => (o.path, o.sizeBytes, o.score)),
          res.deleted_size + (orphans.map OrphanRec.sizeBytes).sum,
          res.errors⟩,
         fs, dc + orphans.length,
         ds + (orphans.map OrphanRec.sizeBytes).sum,
         ev ++ orphans.map (fun o => .dryRunDelete o.path)⟩ := by
  induction orphans generalizing res dc ds ev with
  | nil => simp [process_orphaned_files]
  | cons o rest ih =>
    simp only [process_orphaned_files, secure_delete_file, if_pos rfl, ih,
      List.map_cons, List.sum_cons, List.length_cons, if_true]
    simp [DisposalOutcome.mk.injEq, RunResults.mk.injEq, List.append_assoc,
      Nat.add_assoc, Nat.add_comm, Nat.add_left_comm]

/-- Claim C1 (code behavior at the failing input): in live mode, a batch
of two orphan records where the first file's overwrite raises and the
second succeeds ends with: no entry at all in the run-level `errors` list
(the ledger records no failure, because `secure_delete_file` swallows the
exception and returns `False`, so the caller's `except` block that would
append the failure entry never runs), the failed file absent from
`deleted_files` and from the counters, only an audit-log side-channel
event recording the failure, and the second file still processed and
deleted — the failure does not abort the batch. -/
theorem C1_live_failure_code_behavior :
    process_orphaned_files false
      (fun p => if p == "appdata/work/a.dat".toList
        then some "Errno 5 input output error".toList else none)
      [⟨"appdata/work/a.dat".toList, 100, 0, 100⟩,
       ⟨"appdata/work/b.dat".toList, 50, 0, 100⟩]
      [("appdata/work/a.dat".toList, [1, 2]),
       ("appdata/work/b.dat".toList, [3])]
      ⟨[], 0, []⟩ 0 0 []
    = ⟨⟨[("appdata/work/b.dat".toList, 50, 100)], 50, []⟩,
       [("appdata/work/a.dat".toList, [1, 2])],
       1, 50,
       [.secureDeleteFailed "appdata/work/a.dat".toList
          "Errno 5 input output error".toList,
        .secureDelete "appdata/work/b.dat".toList 1]⟩ := by
  decide

/-- Claim C2, counterexample: for the exact scenario of the claim —
one file `passwords.txt`, age 400 days, size 2 MB, framework `nist`,
default policy 90/1, no known-software token matching — the scan yields
`OrphanCompliant` with score 100 and no compliance issue, because the
nist rule requires age < 365 days and 400 ≥ 365. This refutes the claimed
`OrphanNonCompliant` / score 50 outcome. -/
theorem C2_counterexample :
    scan_with_compliance "nist".toList (400 * 86400) [] ⟨90, 1⟩
      [⟨"appdata/work".toList,
        [⟨"passwords.txt".toList, true, .ok ⟨2097152, 0⟩⟩]⟩]
    = ⟨1, 2097152,
       [⟨"appdata/work/passwords.txt".toList, 2097152, 0, 100⟩],
       [], [], []⟩ := by
  decide

/-- Claim C2 (amended): with the file's age lowered into the window where
the nist retention rule fires — at or above the 90-day protection
threshold and below 365 days, here 200 days — the scan assigns
`passwords.txt` the disposition OrphanNonCompliant whose recorded issue
mentions "retention", and the compliance evaluator's outcome for the file
is score 50, non-compliant. -/
theorem C2_amended_scenario :
    scan_with_compliance "nist".toList (200 * 86400) [] ⟨90, 1⟩
      [⟨"appdata/work".toList,
        [⟨"passwords.txt".toList, true, .ok ⟨2097152, 0⟩⟩]⟩]
      = ⟨1, 2097152, [], [],
         [⟨"appdata/work/passwords.txt".toList, [nistIssue]⟩], []⟩
    ∧ containsSub "retention".toList nistIssue = true
    ∧ check_compliance "nist".toList (200 * 86400)
        "appdata/work/passwords.txt".toList (.ok ⟨2097152, 0⟩)
      = ⟨false, 50, [nistIssue]⟩ := by
  refine ⟨by decide, by decide, by decide⟩

/-! Reduction equations for the stat-matching evaluators. -/

theorem check_nist_ok (now : Int) (p : FilePath') (s : Stat) :
    check_nist_compliance now p (.ok s)
      = if contains_sensitive_data p && decide (now - s.mtime < 365 * 86400)
        then ⟨false, 50, [nistIssue]⟩ else ⟨true, 100, []⟩ := rfl

theorem check_nist_err (now : Int) (p : FilePath') (e : List Char) :
    check_nist_compliance now p (.error e) = ⟨true, 90, [nistErrIssue e]⟩ :=
  rfl

theorem check_sox_ok (now : Int) (p : FilePath') (s : Stat) :
    check_sox_compliance now p (.ok s)
      = if contains_financial_data p then
          (if now - s.mtime < 2555 * 86400 then ⟨false, 10, [soxIssue]⟩
           else ⟨true, 100, []⟩)
        else ⟨true, 100, []⟩ := rfl

theorem check_sox_err (now : Int) (p : FilePath') (e : List Char) :
    check_sox_compliance now p (.error e) = ⟨true, 100, []⟩ := by
  unfold check_sox_compliance
  split <;> rfl

/-- Claim C5, counterexample: under `nist`, a file whose stat fails gets
the issue `Compliance check error: ...` recorded (issues non-empty) with
score 90 while `compliant` stays `true` — refuting "issues non-empty iff
compliant is false". -/
theorem C5_counterexample :
    (check_compliance "nist".toList 0 "a/b".toList
      (.error "Errno 13 Permission denied".toList)).compliant = true
    ∧ (check_compliance "nist".toList 0 "a/b".toList
      (.error "Errno 13 Permission denied".toList)).issues ≠ []
    ∧ (check_compliance "nist".toList 0 "a/b".toList
      (.error "Errno 13 Permission denied".toList)).score = 90 := by
  refine ⟨by decide, by decide, by decide⟩

/-- Claim C5 (amended): for every framework and file, a non-compliant
outcome always carries a non-empty issues list; and whenever the file's
metadata stat succeeds, the issues list is non-empty exactly when the
outcome is non-compliant. (The one exception the counterexample forces:
under `nist` a failed stat records a compliance-check-error issue and a
10-point deduction while `compliant` stays true.) -/
theorem C5_issues_iff_noncompliant_amended (fw : List Char) (now : Int)
    (p : FilePath') :
    (∀ st : StatResult, (check_compliance fw now p st).compliant = false →
      (check_compliance fw now p st).issues ≠ [])
    ∧ ∀ s : Stat, ((check_compliance fw now p (.ok s)).issues ≠ []
        ↔ (check_compliance fw now p (.ok s)).compliant = false) := by
  constructor
  · intro st
    unfold check_compliance
    split
    · cases st with
      | error e => rw [check_nist_err]; simp
      | ok s =>
        rw [check_nist_ok]
        split <;> simp
    · split
      · unfold check_iso27001_compliance
        split <;> simp
      · split
        · cases st with
          | error e => rw [check_sox_err]; simp
          | ok s =>
            rw [check_sox_ok]
            split
            · split <;> simp
            · simp
        · split
          · unfold check_pci_compliance
            split <;> simp
          · simp
  · intro s
    unfold check_compliance
    split
    · rw [check_nist_ok]
      split <;> simp
    · split
      · unfold check_iso27001_compliance
        split <;> simp
      · split
        · rw [check_sox_ok]
          split
          · split <;> simp
          · simp
        · split
          · unfold check_pci_compliance
            split <;> simp
          · simp

/-- Witness for C5 at concrete inputs: a `pci` cardholder path is
non-compliant with a non-empty issues list, and for a stat-successful
benign file under `nist` the issues list is empty iff compliant. -/
theorem C5_witness :
    (check_compliance "pci".toList 0 "x/cards.db".toList
        (.ok ⟨7, 0⟩)).issues ≠ []
    ∧ ((check_compliance "nist".toList 0 "x/notes.bin".toList
        (.ok ⟨7, 0⟩)).issues ≠ []
      ↔ (check_compliance "nist".toList 0 "x/notes.bin".toList
        (.ok ⟨7, 0⟩)).compliant = false) :=
  ⟨(C5_issues_iff_noncompliant_amended "pci".toList 0 "x/cards.db".toList).1
      (.ok ⟨7, 0⟩) (by decide),
   (C5_issues_iff_noncompliant_amended "nist".toList 0 "x/notes.bin".toList).2
      ⟨7, 0⟩⟩

/-- Claim C6, counterexample: under `nist`, the sensitive-data token
`secret` occurs in the full lower-cased path
`secrets/archive/data.bin` (in a grandparent component) and the file age
0 is below 365 days, yet the evaluator applies no deduction — because
`contains_sensitive_data` inspects only the file name and the immediate
parent directory name, not the full path. -/
theorem C6_counterexample :
    containsSub "secret".toList (lower "secrets/archive/data.bin".toList)
      = true
    ∧ ((0 : Int) - (0 : Int) < 365 * 86400)
    ∧ check_nist_compliance 0 "secrets/archive/data.bin".toList
        (.ok ⟨10, 0⟩) = ⟨true, 100, []⟩ := by
  refine ⟨by decide, by decide, by decide⟩

/-- Claim C6 (amended): for `iso27001`, `sox` and `pci` the token match is
a substring match against the file's full lower-cased path; for `nist`
the sensitive-data match inspects only the lower-cased file name and the
lower-cased immediate parent directory name, so a token occurring only in
a higher path component does not trigger the nist deduction. -/
theorem C6_token_matching_amended (p : FilePath') (now : Int) (s : Stat) :
    (check_iso27001_compliance p = ⟨false, 25, [isoIssue]⟩
      ↔ ∃ m ∈ classification_markers, containsSub m (lower p) = true)
    ∧ (check_pci_compliance p = ⟨false, 0, [pciIssue]⟩
      ↔ ∃ m ∈ pci_patterns, containsSub m (lower p) = true)
    ∧ (check_sox_compliance now p (.ok s) = ⟨false, 10, [soxIssue]⟩
      ↔ (∃ m ∈ financial_patterns, containsSub m (lower p) = true)
        ∧ now - s.mtime < 2555 * 86400)
    ∧ (check_nist_compliance now p (.ok s) = ⟨false, 50, [nistIssue]⟩
      ↔ (∃ t ∈ sensitive_patterns,
          containsSub t (lower (fpName p)) = true
          ∨ containsSub t (lower (fpParentName p)) = true)
        ∧ now - s.mtime < 365 * 86400) := by
  refine ⟨?_, ?_, ?_, ?_⟩
  · unfold check_iso27001_compliance
    split <;> rename_i h <;>
      simp only [is_classified_information, List.any_eq_true] at h <;>
      simp [h]
  · unfold check_pci_compliance
    split <;> rename_i h <;>
      simp only [contains_cardholder_data, List.any_eq_true] at h <;>
      simp [h]
  · rw [check_sox_ok]
    split <;> rename_i hf
    · split <;> rename_i ha
      · simp only [contains_financial_data, List.any_eq_true] at hf
        exact iff_of_true rfl ⟨hf, ha⟩
      · refine iff_of_false (by simp) ?_
        intro hc
        exact ha hc.2
    · simp only [contains_financial_data, List.any_eq_true] at hf
      refine iff_of_false (by simp) ?_
      intro hc
      exact hf hc.1
  · rw [check_nist_ok]
    split <;> rename_i h <;>
      simp only [Bool.and_eq_true, decide_eq_true_eq, contains_sensitive_data,
        List.any_eq_true, Bool.or_eq_true] at h
    · exact iff_of_true rfl h
    · exact iff_of_false (by simp) h

/-- Claim C7, counterexample: under `nist`, a file matching no
framework-specific pattern but whose stat fails yields score 90, not 100
— refuting "a file matching no framework-specific pattern always yields
score 100, compliant true" in full generality. -/
theorem C7_counterexample :
    matchesFrameworkPattern "nist".toList "c/d".toList = false
    ∧ (check_compliance "nist".toList 0 "c/d".toList
        (.error "Errno 13 Permission denied".toList)).score = 90
    ∧ (check_compliance "nist".toList 0 "c/d".toList
        (.error "Errno 13 Permission denied".toList)).compliant = true := by
  refine ⟨by decide, by decide, by decide⟩

/-- Claim C7 (amended): a `pci` file whose lower-cased path contains a
cardholder token always yields score 0 and compliant false; and for every
framework — including unrecognized names — a file matching no
framework-specific pattern yields score 100 and compliant true provided
its metadata stat succeeds (under `nist` a failed stat yields 90/true
instead). -/
theorem C7_framework_scores_amended :
    (∀ (now : Int) (p : FilePath') (st : StatResult),
      contains_cardholder_data p = true →
      check_compliance "pci".toList now p st = ⟨false, 0, [pciIssue]⟩)
    ∧ ∀ (fw : List Char) (now : Int) (p : FilePath') (s : Stat),
        matchesFrameworkPattern fw p = false →
        check_compliance fw now p (.ok s) = ⟨true, 100, []⟩ := by
  constructor
  · intro now p st h
    show check_pci_compliance p = _
    unfold check_pci_compliance
    simp [h]
  · intro fw now p s h
    unfold matchesFrameworkPattern at h
    unfold check_compliance
    split <;> rename_i h1
    · rw [if_pos h1] at h
      rw [check_nist_ok]
      simp [h]
    · rw [if_neg h1] at h
      split <;> rename_i h2
      · rw [if_pos h2] at h
        unfold check_iso27001_compliance
        simp [h]
      · rw [if_neg h2] at h
        split <;> rename_i h3
        · rw [if_pos h3] at h
          rw [check_sox_ok]
          simp [h]
        · rw [if_neg h3] at h
          split <;> rename_i h4
          · rw [if_pos h4] at h
            unfold check_pci_compliance
            simp [h]
          · rfl

/-- Witness for C7 at concrete inputs: a cardholder path under `pci`, and
a benign stat-successful file under an unrecognized framework. -/
theorem C7_witness :
    check_compliance "pci".toList 0 "x/cards.db".toList (.ok ⟨7, 0⟩)
      = ⟨false, 0, [pciIssue]⟩
    ∧ check_compliance "hipaa".toList 0 "x/notes.bin".toList (.ok ⟨7, 0⟩)
      = ⟨true, 100, []⟩ :=
  ⟨C7_framework_scores_amended.1 0 "x/cards.db".toList (.ok ⟨7, 0⟩)
      (by decide),
   C7_framework_scores_amended.2 "hipaa".toList 0 "x/notes.bin".toList
      ⟨7, 0⟩ (by decide)⟩

/-! ### Claim C9: spec-side rule predicates (§4.1 of the spec) -/

/-- Spec-side rule 1: some known-software token is a substring of the
lower-cased full path, parent-directory name, or file name. -/
def ruleSoftware (know : KnownSoftware) (p : FilePath') : Bool :=
  know.any fun c => c.2.any fun sw =>
    containsSub sw (lower p) || containsSub sw (lower (fpParentName p)) ||
    containsSub sw (lower (fpName p))

/-- Spec-side rule 2: file age in days below `policy.max_file_age_days`
(unsatisfiable when the stat fails, as the code skips the rule then). -/
def ruleAge (now : Int) (pol : Policy) (st : StatResult) : Bool :=
  match st with
  | .ok s => decide (now - s.mtime < pol.maxFileAgeDays * 86400)
  | .error _ => false

/-- Spec-side rule 3: file size in MB below `policy.min_file_size_mb`
(unsatisfiable when the stat fails). -/
def ruleSize (pol : Policy) (st : StatResult) : Bool :=
  match st with
  | .ok s => decide (s.sizeBytes < pol.minFileSizeMB * 1048576)
  | .error _ => false

/-- Spec-side rule 4: lower-cased extension in the fixed
protected-extension set. -/
def ruleExt (p : FilePath') : Bool :=
  enterprise_extensions.contains (lower (fpSuffix (fpName p)))

/-- The nested early-return search finds nothing exactly when the
spec-side software-rule predicate is false. -/
theorem swFirstMatch_none_iff (know : KnownSoftware) (p : FilePath') :
    swFirstMatch know p = none ↔ ruleSoftware know p = false := by
  induction know with
  | nil => simp [swFirstMatch, ruleSoftware]
  | cons c rest ih =>
    unfold swFirstMatch ruleSoftware
    cases hf : List.find? (fun sw =>
        containsSub sw (lower p) || containsSub sw (lower (fpParentName p)) ||
        containsSub sw (lower (fpName p))) c.2 with
    | some sw =>
      refine iff_of_false (by simp) ?_
      have hpred := List.find?_some hf
      have hmem := List.mem_of_find?_eq_some hf
      simp only [List.any_cons, Bool.or_eq_false_iff, List.any_eq_false]
      intro hc
      exact (hc.1 sw hmem) hpred
    | none =>
      have hany : c.2.any (fun sw =>
          containsSub sw (lower p) || containsSub sw (lower (fpParentName p)) ||
          containsSub sw (lower (fpName p))) = false := by
        rw [List.any_eq_false]
        exact List.find?_eq_none.mp hf
      simp only [List.any_cons, hany, Bool.false_or]
      exact ih.trans (by rw [ruleSoftware])

/-- Claim C9: the link classifier applies its four protection rules in
fixed first-match-wins order — known-software token, then recency, then
size, then protected extension — returning not-protected only when no
rule matches; each outcome carries the rule's reason string (rule 1's is
`Enterprise software ({category}): {token}` for the first matching
category/token pair). Determinism and absence of side effects are
inherent: the embedding is a pure function of its arguments, faithfully
mirroring the source, which reads but never writes. -/
theorem C9_classifier_rule_order (now : Int) (know : KnownSoftware)
    (pol : Policy) (p : FilePath') (st : StatResult) :
    ((is_enterprise_software_linked now know pol p st).1
      = (ruleSoftware know p || ruleAge now pol st || ruleSize pol st
          || ruleExt p))
    ∧ (∀ cat sw, swFirstMatch know p = some (cat, sw) →
        is_enterprise_software_linked now know pol p st
          = (true, swReason cat sw))
    ∧ (ruleSoftware know p = false → ruleAge now pol st = true →
        is_enterprise_software_linked now know pol p st = (true, ageReason))
    ∧ (ruleSoftware know p = false → ruleAge now pol st = false →
        ruleSize pol st = true →
        is_enterprise_software_linked now know pol p st = (true, sizeReason))
    ∧ (ruleSoftware know p = false → ruleAge now pol st = false →
        ruleSize pol st = false → ruleExt p = true →
        is_enterprise_software_linked now know pol p st = (true, extReason p))
    ∧ (ruleSoftware know p = false → ruleAge now pol st = false →
        ruleSize pol st = false → ruleExt p = false →
        is_enterprise_software_linked now know pol p st
          = (false, noLinkReason)) := by
  have hgoal : ∀ (hsw : ruleSoftware know p = false),
      is_enterprise_software_linked now know pol p st
        = (if ruleAge now pol st then (true, ageReason)
           else if ruleSize pol st then (true, sizeReason)
           else if ruleExt p then (true, extReason p)
           else (false, noLinkReason)) := by
    intro hsw
    have hnone := (swFirstMatch_none_iff know p).mpr hsw
    unfold is_enterprise_software_linked
    rw [hnone]
    rfl
  refine ⟨?_, ?_, ?_, ?_, ?_, ?_⟩
  · cases hm : swFirstMatch know p with
    | some cs =>
      have hr : ruleSoftware know p = true := by
        cases hr : ruleSoftware know p with
        | true => rfl
        | false => rw [(swFirstMatch_none_iff know p).mpr hr] at hm; cases hm
      unfold is_enterprise_software_linked
      rw [hm]
      cases cs
      simp [hr]
    | none =>
      have hsw := (swFirstMatch_none_iff know p).mp hm
      rw [hgoal hsw, hsw]
      cases ha : ruleAge now pol st <;> cases hs : ruleSize pol st <;>
        cases he : ruleExt p <;> simp
  · intro cat sw hm
    unfold is_enterprise_software_linked
    rw [hm]
  · intro hsw ha
    rw [hgoal hsw, if_pos ha]
  · intro hsw ha hs
    rw [hgoal hsw, if_neg (by simp [ha]), if_pos hs]
  · intro hsw ha hs he
    rw [hgoal hsw, if_neg (by simp [ha]), if_neg (by simp [hs]), if_pos he]
  · intro hsw ha hs he
    rw [hgoal hsw, if_neg (by simp [ha]), if_neg (by simp [hs]),
      if_neg (by simp [he])]

/-- Witness for C9, the spec's scenario B: `chrome/cache/data.bin`, age
10 days, size 5 MB, known-software token `chrome` — rule 1 fires with a
reason naming chrome. -/
theorem C9_witness :
    is_enterprise_software_linked (10 * 86400)
      [("enterprise_apps".toList, ["chrome".toList])] ⟨90, 1⟩
      "appdata/chrome/cache/data.bin".toList (.ok ⟨5242880, 0⟩)
      = (true, swReason "enterprise_apps".toList "chrome".toList) :=
  (C9_classifier_rule_order (10 * 86400)
    [("enterprise_apps".toList, ["chrome".toList])] ⟨90, 1⟩
    "appdata/chrome/cache/data.bin".toList (.ok ⟨5242880, 0⟩)).2.1
    "enterprise_apps".toList "chrome".toList (by decide)

end Cleaner

